import Mathlib

/-!
# Verification of the mango-v3 instruction (wire-encoding) layer

Shallow embedding of `program/src/instruction.rs`:

* `MangoInstruction` mirrors the Rust enum (41 variants, declaration order =
  bincode/unpack discriminant order).
* `MangoInstruction.unpack` mirrors `MangoInstruction::unpack`.  The Rust
  function returns `Option<Self>` but can also abort: the `arrayref` macros
  (`array_ref!` / `array_refs!`) index into the slice and abort the call when
  the slice is too short, and the `LiquidateTokenAndPerp` arm calls
  `AssetType::try_from(..).unwrap()`, which aborts on an out-of-range byte.
  We therefore decode into `UnpackResult` with three outcomes:
  `ok` (`Some`), `malformed` (`None`), `panic` (abort).
* `MangoInstruction.pack` mirrors `MangoInstruction::pack`, i.e.
  `bincode::serialize` (bincode 1.x legacy options: fixed-width little-endian
  integers, `u32` variant tag, `usize` as `u64`, `bool` as one byte,
  `Option` as a one-byte flag followed by the value only when present,
  `I80F48` as its 16 little-endian bit bytes, fixed `u8` arrays as raw bytes).
* Machine integers are `Fin (256 ^ w)` (their `w`-byte little-endian value);
  signed fields (`i64`, `i128`, `I80F48`) are embedded as their two's
  complement / raw-bit patterns, which is exactly what `from_le_bytes`
  reinterprets, so signedness is irrelevant to every decoding claim.
* The instruction-builder functions (`withdraw`, `consume_events`) are
  embedded with pubkeys as `Nat` (Rust `Pubkey` ordering is a linear order on
  32-byte strings; only its order structure matters here).
-/

/-- A single octet. -/
abbrev Byte := Fin 256

/-- The value space of a `w`-byte little-endian machine word. -/
abbrev W (w : Nat) := Fin (256 ^ w)

/-- Little-endian byte decomposition: the `w` low-order bytes of `n`. -/
def bytesLE : (w : Nat) → Nat → List Byte
  | 0, _ => []
  | w + 1, n => ⟨n % 256, Nat.mod_lt _ (by omega)⟩ :: bytesLE w (n / 256)

/-- Little-endian value of a byte string (what `uNN::from_le_bytes` computes). -/
def natLE : List Byte → Nat
  | [] => 0
  | b :: bs => b.val + 256 * natLE bs

/-- Read a `w`-byte little-endian word from the front of a byte string
(the embedding of `uNN::from_le_bytes` / `I80F48::from_le_bytes` applied to an
`array_ref!` slice). -/
def readLE (w : Nat) (l : List Byte) : W w :=
  ⟨natLE (l.take w) % 256 ^ w, Nat.mod_lt _ (Nat.pos_pow_of_pos _ (by omega))⟩

/-! ## Field types of the instruction payloads -/

/-- Modelled from the spec: `crate::matching::Side` lives in `matching.rs`,
which is not part of the given sources.  The wire format (§6 of the spec and
the `unpack` arm for `PlacePerpOrder`) uses one byte, `0 = Bid`, `1 = Ask`. -/
inductive Side where
  | bid
  | ask
deriving DecidableEq

/-- Modelled from the spec: `crate::matching::OrderType` lives in
`matching.rs`, which is not part of the given sources.  The doc comment on
`PlacePerpOrder` in `instruction.rs` fixes the byte values:
`0 -> LIMIT, 1 -> IOC, 2 -> PostOnly`. -/
inductive OrderType where
  | limit
  | immediateOrCancel
  | postOnly
deriving DecidableEq

/-- Modelled from the spec: `crate::state::AssetType` lives in `state.rs`,
which is not part of the given sources.  `LiquidateTokenAndPerp` distinguishes
token collateral from perp collateral: one byte, `0 = Token`, `1 = Perp`. -/
inductive AssetType where
  | token
  | perp
deriving DecidableEq

/-- `serum_dex::matching::Side` (external crate): `0 = Bid`, `1 = Ask`,
serialized as a `u32` variant tag. -/
inductive DexSide where
  | bid
  | ask
deriving DecidableEq

/-- `serum_dex::matching::OrderType` (external crate): `u32` tag
`0 = Limit`, `1 = ImmediateOrCancel`, `2 = PostOnly`. -/
inductive DexOrderType where
  | limit
  | immediateOrCancel
  | postOnly
deriving DecidableEq

/-- `serum_dex::instruction::SelfTradeBehavior` (external crate): `u32` tag
`0 = DecrementTake`, `1 = CancelProvide`, `2 = AbortTransaction`. -/
inductive SelfTradeBehavior where
  | decrementTake
  | cancelProvide
  | abortTransaction
deriving DecidableEq

/-- `std::num::NonZeroU64`: a `u64` known to be nonzero. -/
def NZ64 := { n : W 8 // n.val ≠ 0 }

instance : DecidableEq NZ64 := fun a b =>
  decidable_of_iff (a.val = b.val) Subtype.ext_iff.symm

/-- `serum_dex::instruction::NewOrderInstructionV3` (external crate), the
payload of `PlaceSpotOrder`. -/
structure NewOrderInstructionV3 where
  side : DexSide
  limit_price : NZ64
  max_coin_qty : NZ64
  max_native_pc_qty_including_fees : NZ64
  self_trade_behavior : SelfTradeBehavior
  order_type : DexOrderType
  client_order_id : W 8
  limit : W 2
deriving DecidableEq

/-- `serum_dex::instruction::CancelOrderInstructionV2` (external crate), the
payload of `CancelSpotOrder`. -/
structure CancelOrderInstructionV2 where
  side : DexSide
  order_id : W 16
deriving DecidableEq

/-- `INFO_LEN` from `state.rs` (not under the given sources); the
`AddMangoAccountInfo` payload is a fixed byte array of this length, embedded
as its little-endian value.  The exact length does not affect any claim. -/
def INFO_LEN : Nat := 32

/-! ## The instruction enum

Constructor order is the Rust declaration order, which is both the bincode
variant-tag order of `pack` and the discriminant order of `unpack`
(`InitMangoGroup = 0` … `ForceSettleQuotePositions = 40`). -/

inductive MangoInstruction where
  | initMangoGroup (signer_nonce valid_interval : W 8)
      (quote_optimal_util quote_optimal_rate quote_max_rate : W 16)
  | initMangoAccount
  | deposit (quantity : W 8)
  | withdraw (quantity : W 8) (allow_borrow : Bool)
  | addSpotMarket (maint_leverage init_leverage liquidation_fee
      optimal_util optimal_rate max_rate : W 16)
  | addToBasket (market_index : W 8)
  | borrow (quantity : W 8)
  | cachePrices
  | cacheRootBanks
  | placeSpotOrder (order : NewOrderInstructionV3)
  | addOracle
  | addPerpMarket (maint_leverage init_leverage liquidation_fee
      maker_fee taker_fee : W 16) (base_lot_size quote_lot_size : W 8)
      (rate max_depth_bps : W 16) (target_period_length mngo_per_period : W 8)
  | placePerpOrder (price quantity client_order_id : W 8)
      (side : Side) (order_type : OrderType)
  | cancelPerpOrderByClientId (client_order_id : W 8) (invalid_id_ok : Bool)
  | cancelPerpOrder (order_id : W 16) (invalid_id_ok : Bool)
  | consumeEvents (limit : W 8)
  | cachePerpMarkets
  | updateFunding
  | setOracle (price : W 16)
  | settleFunds
  | cancelSpotOrder (order : CancelOrderInstructionV2)
  | updateRootBank
  | settlePnl (market_index : W 8)
  | settleBorrow (token_index quantity : W 8)
  | forceCancelSpotOrders (limit : W 1)
  | forceCancelPerpOrders (limit : W 1)
  | liquidateTokenAndToken (max_liab_transfer : W 16)
  | liquidateTokenAndPerp (asset_type : AssetType) (asset_index : W 8)
      (liab_type : AssetType) (liab_index : W 8) (max_liab_transfer : W 16)
  | liquidatePerpMarket (base_transfer_request : W 8)
  | settleFees
  | resolvePerpBankruptcy (liab_index : W 8) (max_liab_transfer : W 16)
  | resolveTokenBankruptcy (max_liab_transfer : W 16)
  | initSpotOpenOrders
  | redeemMngo
  | addMangoAccountInfo (info : W INFO_LEN)
  | depositMsrm (quantity : W 8)
  | withdrawMsrm (quantity : W 8)
  | changePerpMarketParams
      (maint_leverage init_leverage liquidation_fee maker_fee taker_fee
        rate max_depth_bps : Option (W 16))
      (target_period_length mngo_per_period : Option (W 8))
  | setGroupAdmin
  | cancelAllPerpOrders (limit : W 1)
  | forceSettleQuotePositions
deriving DecidableEq

/-! ## Byte codes of the enum-typed fields -/

def Side.toByte : Side → Byte
  | .bid => 0
  | .ask => 1

/-- `Side::try_from_primitive` on the single payload byte. -/
def Side.fromByte (b : Byte) : Option Side :=
  if b.val = 0 then some .bid else if b.val = 1 then some .ask else none

def OrderType.toByte : OrderType → Byte
  | .limit => 0
  | .immediateOrCancel => 1
  | .postOnly => 2

/-- `OrderType::try_from_primitive` on the single payload byte. -/
def OrderType.fromByte (b : Byte) : Option OrderType :=
  if b.val = 0 then some .limit
  else if b.val = 1 then some .immediateOrCancel
  else if b.val = 2 then some .postOnly
  else none

def AssetType.toByte : AssetType → Byte
  | .token => 0
  | .perp => 1

/-- `AssetType::try_from` on the payload byte (`Ok` ↦ `some`). -/
def AssetType.fromByte (b : Byte) : Option AssetType :=
  if b.val = 0 then some .token else if b.val = 1 then some .perp else none

def DexSide.toU32 : DexSide → W 4
  | .bid => 0
  | .ask => 1

/-- `u32 → u8 → Side::try_from_primitive` chain of
`unpack_dex_new_order_v3` (and the explicit `match` of the
`CancelSpotOrder` arm): any value other than 0/1 is rejected. -/
def DexSide.fromU32 (n : W 4) : Option DexSide :=
  if n.val = 0 then some .bid else if n.val = 1 then some .ask else none

def DexOrderType.toU32 : DexOrderType → W 4
  | .limit => 0
  | .immediateOrCancel => 1
  | .postOnly => 2

def DexOrderType.fromU32 (n : W 4) : Option DexOrderType :=
  if n.val = 0 then some .limit
  else if n.val = 1 then some .immediateOrCancel
  else if n.val = 2 then some .postOnly
  else none

def SelfTradeBehavior.toU32 : SelfTradeBehavior → W 4
  | .decrementTake => 0
  | .cancelProvide => 1
  | .abortTransaction => 2

def SelfTradeBehavior.fromU32 (n : W 4) : Option SelfTradeBehavior :=
  if n.val = 0 then some .decrementTake
  else if n.val = 1 then some .cancelProvide
  else if n.val = 2 then some .abortTransaction
  else none

/-- `NonZeroU64::new`. -/
def nonZeroU64 (n : W 8) : Option NZ64 :=
  if h : n.val = 0 then none else some ⟨n, h⟩

/-! ## `pack` (bincode serialization) -/

/-- bincode encodes `bool` as one byte, `0`/`1`. -/
def packBool (b : Bool) : List Byte := [if b then 1 else 0]

/-- bincode encodes `Option<T>` as a one-byte presence flag (`0`/`1`)
followed by the fixed-width value only when present. -/
def packOpt (w : Nat) : Option (W w) → List Byte
  | none => [0]
  | some v => 1 :: bytesLE w v.val

/-- bincode encoding of `serum_dex::instruction::NewOrderInstructionV3`
(field order of the struct; `u32` tags for its enums, `u64` for the
`NonZeroU64` fields, `u16` for `limit`). -/
def packNewOrderV3 (o : NewOrderInstructionV3) : List Byte :=
  bytesLE 4 o.side.toU32.val ++ bytesLE 8 o.limit_price.val.val ++
    bytesLE 8 o.max_coin_qty.val.val ++
    bytesLE 8 o.max_native_pc_qty_including_fees.val.val ++
    bytesLE 4 o.self_trade_behavior.toU32.val ++
    bytesLE 4 o.order_type.toU32.val ++
    bytesLE 8 o.client_order_id.val ++ bytesLE 2 o.limit.val

/-- `MangoInstruction::pack`, i.e. `bincode::serialize(self).unwrap()`:
a `u32` little-endian variant tag followed by the fields in declaration
order.  The enum-typed one-byte fields (`Side`, `OrderType`, `AssetType`,
declared in the source files missing from `src/`) are modelled from the
spec's wire format: one byte holding the primitive value. -/
def MangoInstruction.pack : MangoInstruction → List Byte
  | .initMangoGroup a b c d e =>
      bytesLE 4 0 ++ bytesLE 8 a.val ++ bytesLE 8 b.val ++ bytesLE 16 c.val ++
        bytesLE 16 d.val ++ bytesLE 16 e.val
  | .initMangoAccount => bytesLE 4 1
  | .deposit q => bytesLE 4 2 ++ bytesLE 8 q.val
  | .withdraw q ab => bytesLE 4 3 ++ bytesLE 8 q.val ++ packBool ab
  | .addSpotMarket a b c d e f =>
      bytesLE 4 4 ++ bytesLE 16 a.val ++ bytesLE 16 b.val ++ bytesLE 16 c.val ++
        bytesLE 16 d.val ++ bytesLE 16 e.val ++ bytesLE 16 f.val
  | .addToBasket m => bytesLE 4 5 ++ bytesLE 8 m.val
  | .borrow q => bytesLE 4 6 ++ bytesLE 8 q.val
  | .cachePrices => bytesLE 4 7
  | .cacheRootBanks => bytesLE 4 8
  | .placeSpotOrder o => bytesLE 4 9 ++ packNewOrderV3 o
  | .addOracle => bytesLE 4 10
  | .addPerpMarket a b c d e f g h i j k =>
      bytesLE 4 11 ++ bytesLE 16 a.val ++ bytesLE 16 b.val ++ bytesLE 16 c.val ++
        bytesLE 16 d.val ++ bytesLE 16 e.val ++ bytesLE 8 f.val ++
        bytesLE 8 g.val ++ bytesLE 16 h.val ++ bytesLE 16 i.val ++
        bytesLE 8 j.val ++ bytesLE 8 k.val
  | .placePerpOrder p q c s t =>
      bytesLE 4 12 ++ bytesLE 8 p.val ++ bytesLE 8 q.val ++ bytesLE 8 c.val ++
        [s.toByte] ++ [t.toByte]
  | .cancelPerpOrderByClientId c i =>
      bytesLE 4 13 ++ bytesLE 8 c.val ++ packBool i
  | .cancelPerpOrder o i => bytesLE 4 14 ++ bytesLE 16 o.val ++ packBool i
  | .consumeEvents l => bytesLE 4 15 ++ bytesLE 8 l.val
  | .cachePerpMarkets => bytesLE 4 16
  | .updateFunding => bytesLE 4 17
  | .setOracle p => bytesLE 4 18 ++ bytesLE 16 p.val
  | .settleFunds => bytesLE 4 19
  | .cancelSpotOrder o =>
      bytesLE 4 20 ++ bytesLE 4 o.side.toU32.val ++ bytesLE 16 o.order_id.val
  | .updateRootBank => bytesLE 4 21
  | .settlePnl m => bytesLE 4 22 ++ bytesLE 8 m.val
  | .settleBorrow t q => bytesLE 4 23 ++ bytesLE 8 t.val ++ bytesLE 8 q.val
  | .forceCancelSpotOrders l => bytesLE 4 24 ++ bytesLE 1 l.val
  | .forceCancelPerpOrders l => bytesLE 4 25 ++ bytesLE 1 l.val
  | .liquidateTokenAndToken m => bytesLE 4 26 ++ bytesLE 16 m.val
  | .liquidateTokenAndPerp aty ai lty li m =>
      bytesLE 4 27 ++ [aty.toByte] ++ bytesLE 8 ai.val ++ [lty.toByte] ++
        bytesLE 8 li.val ++ bytesLE 16 m.val
  | .liquidatePerpMarket b => bytesLE 4 28 ++ bytesLE 8 b.val
  | .settleFees => bytesLE 4 29
  | .resolvePerpBankruptcy li m =>
      bytesLE 4 30 ++ bytesLE 8 li.val ++ bytesLE 16 m.val
  | .resolveTokenBankruptcy m => bytesLE 4 31 ++ bytesLE 16 m.val
  | .initSpotOpenOrders => bytesLE 4 32
  | .redeemMngo => bytesLE 4 33
  | .addMangoAccountInfo i => bytesLE 4 34 ++ bytesLE INFO_LEN i.val
  | .depositMsrm q => bytesLE 4 35 ++ bytesLE 8 q.val
  | .withdrawMsrm q => bytesLE 4 36 ++ bytesLE 8 q.val
  | .changePerpMarketParams a b c d e f g h i =>
      bytesLE 4 37 ++ packOpt 16 a ++ packOpt 16 b ++ packOpt 16 c ++
        packOpt 16 d ++ packOpt 16 e ++ packOpt 16 f ++ packOpt 16 g ++
        packOpt 8 h ++ packOpt 8 i
  | .setGroupAdmin => bytesLE 4 38
  | .cancelAllPerpOrders l => bytesLE 4 39 ++ bytesLE 1 l.val
  | .forceSettleQuotePositions => bytesLE 4 40

/-! ## `unpack` -/

/-- Outcome of `MangoInstruction::unpack`.  `ok` is `Some`, `malformed` is
`None` (a `return None` or a failed `?`), and `panic` is an abort: an
`arrayref` bounds failure on a too-short slice, or the
`AssetType::try_from(..).unwrap()` in the `LiquidateTokenAndPerp` arm. -/
inductive UnpackResult where
  | ok (i : MangoInstruction)
  | malformed
  | panic
deriving DecidableEq

def UnpackResult.isOk : UnpackResult → Bool
  | .ok _ => true
  | _ => false

/-- `unpack_dex_new_order_v3` (splits `46 = 4+8+8+8+4+4+8+2`; each failed
conversion propagates `None` through `?`). -/
def unpack_dex_new_order_v3 (d : List Byte) : Option NewOrderInstructionV3 :=
  let r1 := d.drop 4
  let r2 := r1.drop 8
  let r3 := r2.drop 8
  let r4 := r3.drop 8
  let r5 := r4.drop 4
  let r6 := r5.drop 4
  let r7 := r6.drop 8
  do
    let side ← DexSide.fromU32 (readLE 4 d)
    let limit_price ← nonZeroU64 (readLE 8 r1)
    let max_coin_qty ← nonZeroU64 (readLE 8 r2)
    let max_native ← nonZeroU64 (readLE 8 r3)
    let stb ← SelfTradeBehavior.fromU32 (readLE 4 r4)
    let order_type ← DexOrderType.fromU32 (readLE 4 r5)
    some ⟨side, limit_price, max_coin_qty, max_native, stb, order_type,
      readLE 8 r6, readLE 2 r7⟩

/-- `unpack_i80f48_opt`: a 17-byte chunk, one presence byte (`0` means
absent, anything else present) and 16 value bytes. -/
def unpack_i80f48_opt (l : List Byte) : Option (W 16) :=
  if (readLE 1 l).val = 0 then none else some (readLE 16 (l.drop 1))

/-- `unpack_u64_opt`: a 9-byte chunk, one presence byte and 8 value bytes. -/
def unpack_u64_opt (l : List Byte) : Option (W 8) :=
  if (readLE 1 l).val = 0 then none else some (readLE 8 (l.drop 1))

/-- One arm of `MangoInstruction::unpack`'s `match discrim`: `data` is the
input minus its 4 discriminant bytes.  Every arm first mirrors its
`array_ref![data, 0, N]`, which aborts (`panic`) when fewer than `N` bytes
remain, then reads the fields at the `array_refs!` offsets. -/
def unpackArm (discrim : Nat) (data : List Byte) : UnpackResult :=
  match discrim with
  | 0 =>
    if data.length < 64 then .panic else
    let r1 := data.drop 8
    let r2 := r1.drop 8
    let r3 := r2.drop 16
    let r4 := r3.drop 16
    .ok (.initMangoGroup (readLE 8 data) (readLE 8 r1) (readLE 16 r2)
      (readLE 16 r3) (readLE 16 r4))
  | 1 => .ok .initMangoAccount
  | 2 =>
    if data.length < 8 then .panic else
    .ok (.deposit (readLE 8 data))
  | 3 =>
    if data.length < 9 then .panic else
    let ab := readLE 1 (data.drop 8)
    if ab.val = 0 then .ok (.withdraw (readLE 8 data) false)
    else if ab.val = 1 then .ok (.withdraw (readLE 8 data) true)
    else .malformed
  | 4 =>
    if data.length < 96 then .panic else
    let r1 := data.drop 16
    let r2 := r1.drop 16
    let r3 := r2.drop 16
    let r4 := r3.drop 16
    let r5 := r4.drop 16
    .ok (.addSpotMarket (readLE 16 data) (readLE 16 r1) (readLE 16 r2)
      (readLE 16 r3) (readLE 16 r4) (readLE 16 r5))
  | 5 =>
    if data.length < 8 then .panic else
    .ok (.addToBasket (readLE 8 data))
  | 6 =>
    if data.length < 8 then .panic else
    .ok (.borrow (readLE 8 data))
  | 7 => .ok .cachePrices
  | 8 => .ok .cacheRootBanks
  | 9 =>
    if data.length < 46 then .panic else
    match unpack_dex_new_order_v3 data with
    | none => .malformed
    | some o => .ok (.placeSpotOrder o)
  | 10 => .ok .addOracle
  | 11 =>
    if data.length < 144 then .panic else
    let r1 := data.drop 16
    let r2 := r1.drop 16
    let r3 := r2.drop 16
    let r4 := r3.drop 16
    let r5 := r4.drop 16
    let r6 := r5.drop 8
    let r7 := r6.drop 8
    let r8 := r7.drop 16
    let r9 := r8.drop 16
    let r10 := r9.drop 8
    .ok (.addPerpMarket (readLE 16 data) (readLE 16 r1) (readLE 16 r2)
      (readLE 16 r3) (readLE 16 r4) (readLE 8 r5) (readLE 8 r6)
      (readLE 16 r7) (readLE 16 r8) (readLE 8 r9) (readLE 8 r10))
  | 12 =>
    if data.length < 26 then .panic else
    let r1 := data.drop 8
    let r2 := r1.drop 8
    let r3 := r2.drop 8
    let r4 := r3.drop 1
    match Side.fromByte (readLE 1 r3), OrderType.fromByte (readLE 1 r4) with
    | some s, some t =>
        .ok (.placePerpOrder (readLE 8 data) (readLE 8 r1) (readLE 8 r2) s t)
    | _, _ => .malformed
  | 13 =>
    if data.length < 9 then .panic else
    .ok (.cancelPerpOrderByClientId (readLE 8 data)
      ((readLE 1 (data.drop 8)).val != 0))
  | 14 =>
    if data.length < 17 then .panic else
    .ok (.cancelPerpOrder (readLE 16 data)
      ((readLE 1 (data.drop 16)).val != 0))
  | 15 =>
    if data.length < 8 then .panic else
    .ok (.consumeEvents (readLE 8 data))
  | 16 => .ok .cachePerpMarkets
  | 17 => .ok .updateFunding
  | 18 =>
    if data.length < 16 then .panic else
    .ok (.setOracle (readLE 16 data))
  | 19 => .ok .settleFunds
  | 20 =>
    if data.length < 20 then .panic else
    match DexSide.fromU32 (readLE 4 data) with
    | none => .malformed
    | some s => .ok (.cancelSpotOrder ⟨s, readLE 16 (data.drop 4)⟩)
  | 21 => .ok .updateRootBank
  | 22 =>
    if data.length < 8 then .panic else
    .ok (.settlePnl (readLE 8 data))
  | 23 =>
    if data.length < 16 then .panic else
    .ok (.settleBorrow (readLE 8 data) (readLE 8 (data.drop 8)))
  | 24 =>
    if data.length < 1 then .panic else
    .ok (.forceCancelSpotOrders (readLE 1 data))
  | 25 =>
    if data.length < 1 then .panic else
    .ok (.forceCancelPerpOrders (readLE 1 data))
  | 26 =>
    if data.length < 16 then .panic else
    .ok (.liquidateTokenAndToken (readLE 16 data))
  | 27 =>
    if data.length < 34 then .panic else
    let r1 := data.drop 1
    let r2 := r1.drop 8
    let r3 := r2.drop 1
    let r4 := r3.drop 8
    match AssetType.fromByte (readLE 1 data), AssetType.fromByte (readLE 1 r2) with
    | some aty, some lty =>
        .ok (.liquidateTokenAndPerp aty (readLE 8 r1) lty (readLE 8 r3)
          (readLE 16 r4))
    | _, _ => .panic
  | 28 =>
    if data.length < 8 then .panic else
    .ok (.liquidatePerpMarket (readLE 8 data))
  | 29 => .ok .settleFees
  | 30 =>
    if data.length < 24 then .panic else
    .ok (.resolvePerpBankruptcy (readLE 8 data) (readLE 16 (data.drop 8)))
  | 31 =>
    if data.length < 16 then .panic else
    .ok (.resolveTokenBankruptcy (readLE 16 data))
  | 32 => .ok .initSpotOpenOrders
  | 33 => .ok .redeemMngo
  | 34 =>
    if data.length < INFO_LEN then .panic else
    .ok (.addMangoAccountInfo (readLE INFO_LEN data))
  | 35 =>
    if data.length < 8 then .panic else
    .ok (.depositMsrm (readLE 8 data))
  | 36 =>
    if data.length < 8 then .panic else
    .ok (.withdrawMsrm (readLE 8 data))
  | 37 =>
    if data.length < 137 then .panic else
    let r1 := data.drop 17
    let r2 := r1.drop 17
    let r3 := r2.drop 17
    let r4 := r3.drop 17
    let r5 := r4.drop 17
    let r6 := r5.drop 17
    let r7 := r6.drop 17
    let r8 := r7.drop 9
    .ok (.changePerpMarketParams (unpack_i80f48_opt data)
      (unpack_i80f48_opt r1) (unpack_i80f48_opt r2) (unpack_i80f48_opt r3)
      (unpack_i80f48_opt r4) (unpack_i80f48_opt r5) (unpack_i80f48_opt r6)
      (unpack_u64_opt r7) (unpack_u64_opt r8))
  | 38 => .ok .setGroupAdmin
  | 39 =>
    if data.length < 1 then .panic else
    .ok (.cancelAllPerpOrders (readLE 1 data))
  | 40 => .ok .forceSettleQuotePositions
  | _ => .malformed

/-- `MangoInstruction::unpack`.  The initial
`array_refs![input, 4; ..;]` aborts when the input is shorter than the
4 discriminant bytes; afterwards the discriminant selects the arm. -/
def MangoInstruction.unpack (input : List Byte) : UnpackResult :=
  if input.length < 4 then .panic
  else unpackArm (natLE (input.take 4)) (input.drop 4)

/-- Bundles the presence condition on the optional fields of
`ChangePerpMarketParams`; `true` on every other variant. -/
def allOptsPresentB : MangoInstruction → Bool
  | .changePerpMarketParams a b c d e f g h i =>
      a.isSome && b.isSome && c.isSome && d.isSome && e.isSome &&
        f.isSome && g.isSome && h.isSome && i.isSome
  | _ => true

/-- The fixed payload size demanded by each `unpack` arm's
`array_ref![data, 0, N]` (0 for the field-less arms and for unknown
discriminants, which read no payload). -/
def requiredLen : Nat → Nat
  | 0 => 64
  | 2 => 8
  | 3 => 9
  | 4 => 96
  | 5 => 8
  | 6 => 8
  | 9 => 46
  | 11 => 144
  | 12 => 26
  | 13 => 9
  | 14 => 17
  | 15 => 8
  | 18 => 16
  | 20 => 20
  | 22 => 8
  | 23 => 16
  | 24 => 1
  | 25 => 1
  | 26 => 16
  | 27 => 34
  | 28 => 8
  | 30 => 24
  | 31 => 16
  | 34 => INFO_LEN
  | 35 => 8
  | 36 => 8
  | 37 => 137
  | 39 => 1
  | _ => 0

/-- For each discriminant `0 ≤ d ≤ 40`, one concrete input that `unpack`
accepts: the discriminant bytes followed by a all-zero payload of the
required size, except for `PlaceSpotOrder` (discriminant 9), whose three
`NonZeroU64` fields must be nonzero. -/
def sample (d : Nat) : List Byte :=
  bytesLE 4 d ++
    (if d = 9 then
      List.replicate 4 0 ++ ((1 : Byte) :: List.replicate 7 0) ++
        ((1 : Byte) :: List.replicate 7 0) ++ ((1 : Byte) :: List.replicate 7 0) ++
        List.replicate 18 0
    else List.replicate (requiredLen d) 0)

/-! ## Instruction builders (client-side helpers of `instruction.rs`)

`Pubkey` is embedded as `Nat`: the Rust type is a 32-byte string compared
lexicographically (a linear order), and only its order structure and
identity are relevant to the builder claims. -/

/-- `solana_program::instruction::AccountMeta`. -/
structure AccountMeta where
  pubkey : Nat
  is_signer : Bool
  is_writable : Bool
deriving DecidableEq

/-- `AccountMeta::new` — writable. -/
def AccountMeta.new (pubkey : Nat) (is_signer : Bool) : AccountMeta :=
  ⟨pubkey, is_signer, true⟩

/-- `AccountMeta::new_readonly`. -/
def AccountMeta.new_readonly (pubkey : Nat) (is_signer : Bool) : AccountMeta :=
  ⟨pubkey, is_signer, false⟩

/-- `solana_program::instruction::Instruction`. -/
structure Instruction where
  program_id : Nat
  accounts : List AccountMeta
  data : List Byte
deriving DecidableEq

/-- `spl_token::ID` (external crate): a fixed key, value irrelevant. -/
def spl_token_ID : Nat := 1000

/-- The `withdraw` builder function: the fixed ten account metas in source
order followed by one read-only meta per open-orders key, with the packed
`Withdraw` instruction as data. -/
def withdraw (program_id mango_group_pk mango_account_pk owner_pk
    mango_cache_pk root_bank_pk node_bank_pk vault_pk token_account_pk
    signer_pk : Nat) (open_orders_pks : List Nat)
    (quantity : W 8) (allow_borrow : Bool) : Instruction :=
  { program_id := program_id
    accounts :=
      [AccountMeta.new mango_group_pk false,
        AccountMeta.new mango_account_pk false,
        AccountMeta.new_readonly owner_pk true,
        AccountMeta.new_readonly mango_cache_pk false,
        AccountMeta.new_readonly root_bank_pk false,
        AccountMeta.new node_bank_pk false,
        AccountMeta.new vault_pk false,
        AccountMeta.new token_account_pk false,
        AccountMeta.new_readonly signer_pk false,
        AccountMeta.new_readonly spl_token_ID false] ++
        open_orders_pks.map (fun pk => AccountMeta.new_readonly pk false)
    data := MangoInstruction.pack (.withdraw quantity allow_borrow) }

/-- The `consume_events` builder function.  `mango_acc_pks.sort()` sorts the
caller's slice in place (Rust's stable ascending sort; on a linear order the
result is determined by sortedness + permutation, so `List.insertionSort`
is extensionally the same function); the sorted keys are appended as
writable metas after the four fixed metas.  Returns the built instruction
together with the final contents of the caller's slice. -/
def consume_events (program_id mango_group_pk mango_cache_pk perp_market_pk
    event_queue_pk : Nat) (mango_acc_pks : List Nat) (limit : W 8) :
    Instruction × List Nat :=
  let sorted := mango_acc_pks.insertionSort (· ≤ ·)
  ({ program_id := program_id
     accounts :=
       [AccountMeta.new_readonly mango_group_pk false,
         AccountMeta.new_readonly mango_cache_pk false,
         AccountMeta.new perp_market_pk false,
         AccountMeta.new event_queue_pk false] ++
         sorted.map (fun pk => AccountMeta.new pk false)
     data := MangoInstruction.pack (.consumeEvents limit) },
   sorted)

/-! ## HealthEngine model

Modelled from the spec: the HealthEngine itself is not under `src/`
(only the instruction/ABI surface is), so the solvency computation is
taken from spec §4.2. -/

/-- Modelled from the spec: one basket slot's inputs to the health sum —
the slot's signed native token balance, its oracle price, the net perp
position value (base value plus quote balance, sign following exposure),
the worst-case locked open-orders value (counted at par), and the slot's
maintenance/initial leverage weights applied to negative values. -/
structure HealthSlot where
  balance : ℚ
  price : ℚ
  perpNet : ℚ
  ooLocked : ℚ
  maintWeight : ℚ
  initWeight : ℚ

/-- Modelled from the spec: a nonnegative value contributes at par, a
negative value is scaled by the leverage weight. -/
def contrib (w v : ℚ) : ℚ := if 0 ≤ v then v else v * w

/-- Modelled from the spec: one slot's contribution to a health metric
(`useInit = true` for initial health, `false` for maintenance health). -/
def slotHealth (useInit : Bool) (s : HealthSlot) : ℚ :=
  let w := if useInit then s.initWeight else s.maintWeight
  contrib w (s.balance * s.price) + contrib w s.perpNet + s.ooLocked

/-- Modelled from the spec: a health metric is the sum over basket slots. -/
def accountHealth (useInit : Bool) (slots : List HealthSlot) : ℚ :=
  (slots.map (slotHealth useInit)).sum

/-- Initial health. -/
def initHealth (slots : List HealthSlot) : ℚ := accountHealth true slots

/-- Maintenance health. -/
def maintHealth (slots : List HealthSlot) : ℚ := accountHealth false slots

/-! ## Lemmas about the byte primitives -/

@[simp] theorem bytesLE_length (w n : Nat) : (bytesLE w n).length = w := by
  induction w generalizing n with
  | zero => rfl
  | succ w ih => simp [bytesLE, ih]

theorem natLE_lt (l : List Byte) : natLE l < 256 ^ l.length := by
  induction l with
  | nil => simp [natLE]
  | cons b bs ih =>
    have hb := b.isLt
    simp only [natLE, List.length_cons, Nat.pow_succ]
    omega

theorem natLE_bytesLE (w n : Nat) : natLE (bytesLE w n) = n % 256 ^ w := by
  induction w generalizing n with
  | zero => simp [bytesLE, natLE, Nat.mod_one]
  | succ w ih =>
    rw [Nat.pow_succ, Nat.mul_comm, Nat.mod_mul]
    simp [bytesLE, natLE, ih]

theorem natLE_bytesLE_of_lt {w n : Nat} (h : n < 256 ^ w) :
    natLE (bytesLE w n) = n := by
  rw [natLE_bytesLE, Nat.mod_eq_of_lt h]

@[simp] theorem readLE_append (w : Nat) (v : W w) (rest : List Byte) :
    readLE w (bytesLE w v.val ++ rest) = v := by
  apply Fin.ext
  simp only [readLE]
  rw [List.take_left' (bytesLE_length w v.val), natLE_bytesLE_of_lt v.isLt,
    Nat.mod_eq_of_lt v.isLt]

@[simp] theorem readLE_exact (w : Nat) (v : W w) :
    readLE w (bytesLE w v.val) = v := by
  have h := readLE_append w v []
  rwa [List.append_nil] at h

@[simp] theorem drop_bytesLE_append (w n : Nat) (rest : List Byte) :
    (bytesLE w n ++ rest).drop w = rest :=
  List.drop_left' (bytesLE_length w n)

@[simp] theorem drop_bytesLE_exact (w n : Nat) : (bytesLE w n).drop w = [] := by
  have h := drop_bytesLE_append w n []
  rwa [List.append_nil] at h

@[simp] theorem take_bytesLE_append (w n : Nat) (rest : List Byte) :
    (bytesLE w n ++ rest).take w = bytesLE w n :=
  List.take_left' (bytesLE_length w n)

@[simp] theorem readLE_one_cons (b : Byte) (rest : List Byte) :
    readLE 1 (b :: rest) = b := by
  apply Fin.ext
  simp [readLE, natLE, Nat.mod_eq_of_lt b.isLt]

@[simp] theorem natLE_bytesLE_lit (n : Nat) (h : n < 256 ^ 4) :
    natLE (bytesLE 4 n) = n := natLE_bytesLE_of_lt h

@[simp] theorem side_fromByte_toByte (s : Side) :
    Side.fromByte s.toByte = some s := by cases s <;> rfl

@[simp] theorem orderType_fromByte_toByte (t : OrderType) :
    OrderType.fromByte t.toByte = some t := by cases t <;> rfl

@[simp] theorem assetType_fromByte_toByte (a : AssetType) :
    AssetType.fromByte a.toByte = some a := by cases a <;> rfl

@[simp] theorem dexSide_fromU32_toU32 (s : DexSide) :
    DexSide.fromU32 s.toU32 = some s := by cases s <;> rfl

@[simp] theorem dexOrderType_fromU32_toU32 (t : DexOrderType) :
    DexOrderType.fromU32 t.toU32 = some t := by cases t <;> rfl

@[simp] theorem selfTradeBehavior_fromU32_toU32 (b : SelfTradeBehavior) :
    SelfTradeBehavior.fromU32 b.toU32 = some b := by cases b <;> rfl

@[simp] theorem nonZeroU64_val (z : NZ64) : nonZeroU64 z.val = some z := by
  unfold nonZeroU64
  rw [dif_neg z.2]
  exact congrArg some (Subtype.ext rfl)

@[simp] theorem take_bytesLE_exact (w n : Nat) : (bytesLE w n).take w = bytesLE w n := by
  have h := take_bytesLE_append w n []
  rwa [List.append_nil] at h

@[simp] theorem packNewOrderV3_length (o : NewOrderInstructionV3) :
    (packNewOrderV3 o).length = 46 := by
  simp [packNewOrderV3]

@[simp] theorem unpack_dex_roundtrip (o : NewOrderInstructionV3) :
    unpack_dex_new_order_v3 (packNewOrderV3 o) = some o := by
  simp [unpack_dex_new_order_v3, packNewOrderV3]

@[simp] theorem packBool_val_bne (b : Bool) :
    ((if b then (1 : Byte) else 0).val != 0) = b := by
  cases b <;> rfl

/-! ## Claim theorems -/

set_option maxRecDepth 10000

/-- C1 (amended): decoding inverts encoding — `unpack (pack x) = Some x`,
with the 4-byte little-endian variant tag and fixed-width payload — for
every instruction except `ChangePerpMarketParams` with an absent optional
field: `pack` (bincode) omits the value bytes of an absent optional, so the
payload falls short of the 137 bytes the `unpack` arm demands and `unpack`
aborts (see the counterexample). -/
theorem c1_pack_unpack_roundtrip (x : MangoInstruction)
    (h : allOptsPresentB x = true) :
    MangoInstruction.unpack (MangoInstruction.pack x) = .ok x := by
  cases x
  case withdraw q ab =>
    cases ab <;>
      simp [MangoInstruction.pack, MangoInstruction.unpack, unpackArm, packBool]
  case cancelPerpOrderByClientId c i =>
    simp [MangoInstruction.pack, MangoInstruction.unpack, unpackArm, packBool]
  case cancelPerpOrder o i =>
    simp [MangoInstruction.pack, MangoInstruction.unpack, unpackArm, packBool]
  case changePerpMarketParams a b c d e f g h2 i =>
    simp only [allOptsPresentB, Bool.and_eq_true] at h
    obtain ⟨⟨⟨⟨⟨⟨⟨⟨ha, hb⟩, hc⟩, hd⟩, he⟩, hf⟩, hg⟩, hh⟩, hi⟩ := h
    rw [Option.isSome_iff_exists] at ha hb hc hd he hf hg hh hi
    obtain ⟨va, rfl⟩ := ha
    obtain ⟨vb, rfl⟩ := hb
    obtain ⟨vc, rfl⟩ := hc
    obtain ⟨vd, rfl⟩ := hd
    obtain ⟨ve, rfl⟩ := he
    obtain ⟨vf, rfl⟩ := hf
    obtain ⟨vg, rfl⟩ := hg
    obtain ⟨vh, rfl⟩ := hh
    obtain ⟨vi, rfl⟩ := hi
    simp [MangoInstruction.pack, MangoInstruction.unpack, unpackArm, packOpt,
      unpack_i80f48_opt, unpack_u64_opt]
  all_goals
    simp [MangoInstruction.pack, MangoInstruction.unpack, unpackArm, INFO_LEN]

/-- C1 counterexample: for `ChangePerpMarketParams` with all optional fields
absent, `pack` emits only `4 + 9` bytes (tag plus nine zero flag bytes), and
`unpack` of that encoding aborts instead of returning the instruction. -/
theorem c1_counterexample_absent_optionals :
    MangoInstruction.unpack (MangoInstruction.pack
      (.changePerpMarketParams none none none none none none none none none)) =
      .panic ∧
    MangoInstruction.unpack (MangoInstruction.pack
      (.changePerpMarketParams none none none none none none none none none)) ≠
      .ok (.changePerpMarketParams none none none none none none none none none) := by
  decide

/-- C1 witness: the round trip at a concrete `ChangePerpMarketParams` with
every optional field present. -/
theorem c1_pack_unpack_roundtrip_witness :
    allOptsPresentB (.changePerpMarketParams (some 1) (some 2) (some 3)
      (some 4) (some 5) (some 6) (some 7) (some 8) (some 9)) = true ∧
    MangoInstruction.unpack (MangoInstruction.pack
      (.changePerpMarketParams (some 1) (some 2) (some 3) (some 4) (some 5)
        (some 6) (some 7) (some 8) (some 9))) =
      .ok (.changePerpMarketParams (some 1) (some 2) (some 3) (some 4) (some 5)
        (some 6) (some 7) (some 8) (some 9)) :=
  ⟨by decide, c1_pack_unpack_roundtrip _ (by decide)⟩

/-- Every `unpack` arm aborts when the remaining payload is shorter than the
size its `array_ref![data, 0, N]` demands. -/
theorem truncated_arm_panics (d : Nat) (data : List Byte)
    (h : data.length < requiredLen d) : unpackArm d data = .panic := by
  rcases Nat.lt_or_ge d 41 with hd | hd
  · interval_cases d <;> simp_all [unpackArm, requiredLen, INFO_LEN]
  · obtain ⟨k, rfl⟩ : ∃ k, d = k + 41 := ⟨d - 41, by omega⟩
    have h0 : requiredLen (k + 41) = 0 := rfl
    rw [h0] at h
    exact absurd h (Nat.not_lt_zero _)

/-- C2 (amended): decode failures before any dispatch, but not all of them
are `None`: an input shorter than the 4 discriminant bytes aborts (panics)
in `array_refs!`; a payload shorter than the selected arm's fixed size
aborts in `array_ref!`; and a `LiquidateTokenAndPerp` `asset_type` byte
outside `{0, 1}` aborts in `AssetType::try_from(..).unwrap()`.  Only
unknown discriminants and checked conversions return `None`. -/
theorem c2_malformed_input_behavior :
    (∀ input : List Byte, input.length < 4 →
      MangoInstruction.unpack input = .panic) ∧
    (∀ input : List Byte, 4 ≤ input.length →
      input.length < 4 + requiredLen (natLE (input.take 4)) →
      MangoInstruction.unpack input = .panic) ∧
    (∀ b : Byte, 2 ≤ b.val →
      MangoInstruction.unpack (bytesLE 4 27 ++ b :: List.replicate 33 0) =
        .panic) := by
  refine ⟨?_, ?_, ?_⟩
  · intro input h
    simp [MangoInstruction.unpack, h]
  · intro input h4 hlen
    rw [MangoInstruction.unpack, if_neg (by omega)]
    apply truncated_arm_panics
    simp
    omega
  · intro b hb
    rw [MangoInstruction.unpack, if_neg (by simp), take_bytesLE_append,
      drop_bytesLE_append, natLE_bytesLE_lit 27 (by decide)]
    simp [unpackArm, AssetType.fromByte, show ¬ b.val = 0 by omega,
      show ¬ b.val = 1 by omega]

/-- C2 counterexample: the empty input (shorter than 4 bytes) makes `unpack`
abort in `array_refs!`; it does not return `None` as the claim states. -/
theorem c2_counterexample_short_input :
    MangoInstruction.unpack [] = .panic ∧
    MangoInstruction.unpack [] ≠ .malformed := by
  decide

/-- C2 witness: the three failure modes at concrete inputs — the empty
input, a `Deposit` request with no payload, and a `LiquidateTokenAndPerp`
payload with asset-type byte 2. -/
theorem c2_malformed_input_behavior_witness :
    MangoInstruction.unpack [] = .panic ∧
    MangoInstruction.unpack (bytesLE 4 2) = .panic ∧
    MangoInstruction.unpack (bytesLE 4 27 ++ (2 : Byte) ::
      List.replicate 33 0) = .panic :=
  ⟨c2_malformed_input_behavior.1 [] (by decide),
    c2_malformed_input_behavior.2.1 (bytesLE 4 2) (by decide) (by decide),
    c2_malformed_input_behavior.2.2 2 (by decide)⟩

/-- C3: the discriminant set is exactly `0..40`: every input whose first
four bytes little-endian-decode above 40 yields `None`, and for each
`d < 41` there is a concrete accepted input carrying discriminant `d`. -/
theorem c3_discriminants_exactly_0_to_40 :
    (∀ input : List Byte, 4 ≤ input.length → 40 < natLE (input.take 4) →
      MangoInstruction.unpack input = .malformed) ∧
    (∀ d, d < 41 → (MangoInstruction.unpack (sample d)).isOk = true ∧
      natLE ((sample d).take 4) = d) := by
  constructor
  · intro input h4 hd
    rw [MangoInstruction.unpack, if_neg (by omega)]
    obtain ⟨k, hk⟩ : ∃ k, natLE (input.take 4) = k + 41 :=
      ⟨natLE (input.take 4) - 41, by omega⟩
    rw [hk]
    rfl
  · decide

/-- C3 witness: discriminant 41 is rejected as `None`; discriminant 0 is
accepted on its sample input. -/
theorem c3_discriminants_exactly_0_to_40_witness :
    MangoInstruction.unpack (bytesLE 4 41) = .malformed ∧
    ((MangoInstruction.unpack (sample 0)).isOk = true ∧
      natLE ((sample 0).take 4) = 0) :=
  ⟨c3_discriminants_exactly_0_to_40.1 (bytesLE 4 41) (by decide) (by decide),
    c3_discriminants_exactly_0_to_40.2 0 (by decide)⟩

/-- C4 (amended): `Withdraw`'s `allow_borrow` byte must be 0 or 1 — any
other byte makes `unpack` return `None` — but the `invalid_id_ok` byte of
`CancelPerpOrderByClientId` and `CancelPerpOrder` is decoded as `byte != 0`,
so every nonzero byte (not just 1) decodes to `true` without failing. -/
theorem c4_boolean_byte_decoding :
    (∀ (q : W 8) (b : Byte), 2 ≤ b.val →
      MangoInstruction.unpack (bytesLE 4 3 ++ bytesLE 8 q.val ++ [b]) =
        .malformed) ∧
    (∀ q : W 8,
      MangoInstruction.unpack (bytesLE 4 3 ++ bytesLE 8 q.val ++ [0]) =
        .ok (.withdraw q false)) ∧
    (∀ q : W 8,
      MangoInstruction.unpack (bytesLE 4 3 ++ bytesLE 8 q.val ++ [1]) =
        .ok (.withdraw q true)) ∧
    (∀ (c : W 8) (b : Byte),
      MangoInstruction.unpack (bytesLE 4 13 ++ bytesLE 8 c.val ++ [b]) =
        .ok (.cancelPerpOrderByClientId c (b.val != 0))) ∧
    (∀ (o : W 16) (b : Byte),
      MangoInstruction.unpack (bytesLE 4 14 ++ bytesLE 16 o.val ++ [b]) =
        .ok (.cancelPerpOrder o (b.val != 0))) := by
  refine ⟨?_, ?_, ?_, ?_, ?_⟩
  · intro q b hb
    simp [MangoInstruction.unpack, unpackArm, show ¬ b.val = 0 by omega,
      show ¬ b.val = 1 by omega]
  · intro q
    simp [MangoInstruction.unpack, unpackArm]
  · intro q
    simp [MangoInstruction.unpack, unpackArm]
  · intro c b
    simp [MangoInstruction.unpack, unpackArm]
  · intro o b
    simp [MangoInstruction.unpack, unpackArm]

/-- C4 counterexample: byte 2 in the `invalid_id_ok` position of
`CancelPerpOrderByClientId` is accepted and decodes to `true`, where the
claim requires `unpack` to fail. -/
theorem c4_counterexample_nonboolean_byte_accepted :
    MangoInstruction.unpack (bytesLE 4 13 ++ List.replicate 8 0 ++ [2]) =
      .ok (.cancelPerpOrderByClientId 0 true) ∧
    MangoInstruction.unpack (bytesLE 4 13 ++ List.replicate 8 0 ++ [2]) ≠
      .malformed := by
  decide

/-- C4 witness: `Withdraw` rejects byte 2 while `CancelPerpOrderByClientId`
accepts it as `true`, at concrete inputs. -/
theorem c4_boolean_byte_decoding_witness :
    MangoInstruction.unpack (bytesLE 4 3 ++ bytesLE 8 (0 : W 8).val ++ [2]) =
      .malformed ∧
    MangoInstruction.unpack (bytesLE 4 13 ++ bytesLE 8 (0 : W 8).val ++ [2]) =
      .ok (.cancelPerpOrderByClientId 0 (((2 : Byte)).val != 0)) :=
  ⟨c4_boolean_byte_decoding.1 0 2 (by decide),
    c4_boolean_byte_decoding.2.2.2.1 0 2⟩

/-- C5 (amended): on the decode side every optional chunk is fixed-width —
17 bytes per optional `I80F48`, 9 per optional `u64`, flag byte 0 decoding
to `None` and any nonzero flag to `Some` of the following value bytes — but
on the encode side `pack` emits the flag byte followed by the value bytes
only when the field is present (an absent field is the single byte 0, not a
17/9-byte chunk; see the counterexample). -/
theorem c5_optional_field_encoding :
    (∀ (b : Byte) (v : W 16) (rest : List Byte),
      unpack_i80f48_opt (b :: (bytesLE 16 v.val ++ rest)) =
        if b.val = 0 then none else some v) ∧
    (∀ (b : Byte) (v : W 8) (rest : List Byte),
      unpack_u64_opt (b :: (bytesLE 8 v.val ++ rest)) =
        if b.val = 0 then none else some v) ∧
    (∀ v : W 16, packOpt 16 (some v) = 1 :: bytesLE 16 v.val) ∧
    packOpt 16 none = [0] ∧
    (∀ v : W 8, packOpt 8 (some v) = 1 :: bytesLE 8 v.val) ∧
    packOpt 8 none = [0] := by
  refine ⟨?_, ?_, fun v => rfl, rfl, fun v => rfl, rfl⟩
  · intro b v rest
    by_cases hb : b.val = 0 <;> simp [unpack_i80f48_opt, hb]
  · intro b v rest
    by_cases hb : b.val = 0 <;> simp [unpack_u64_opt, hb]

/-- C5 counterexample: `pack` of `ChangePerpMarketParams` with every
optional field absent is 13 bytes (tag plus nine flag bytes), not the
`4 + 137` bytes that a fixed 17/9-byte-per-field encoding would produce. -/
theorem c5_counterexample_pack_absent_field_length :
    (MangoInstruction.pack
      (.changePerpMarketParams none none none none none none none none
        none)).length = 13 ∧
    (MangoInstruction.pack
      (.changePerpMarketParams none none none none none none none none
        none)).length ≠ 4 + 137 := by
  decide

/-- A larger leverage weight never increases a contribution: values at or
above zero enter at par, negative values are scaled by the weight. -/
theorem contrib_anti {w1 w2 v : ℚ} (h : w1 ≤ w2) :
    contrib w2 v ≤ contrib w1 v := by
  unfold contrib
  split
  · exact le_refl v
  · exact mul_le_mul_of_nonpos_left h (by linarith)

/-- C6: for every account state (all balances, prices, perp values and
locked open-order values) whose slots have initial leverage weights at
least as large as their maintenance weights (the spec's "initial weights
are stricter" condition), initial health is at most maintenance health. -/
theorem c6_init_health_le_maint_health (slots : List HealthSlot)
    (h : ∀ s ∈ slots, s.maintWeight ≤ s.initWeight) :
    initHealth slots ≤ maintHealth slots := by
  induction slots with
  | nil => simp [initHealth, maintHealth, accountHealth]
  | cons s rest ih =>
    have hs := h s (List.mem_cons_self s rest)
    have hrest := ih (fun t ht => h t (List.mem_cons_of_mem s ht))
    have h1 : slotHealth true s ≤ slotHealth false s := by
      have ha := contrib_anti (v := s.balance * s.price) hs
      have hb := contrib_anti (v := s.perpNet) hs
      simp only [slotHealth, if_true, Bool.false_eq_true, if_false]
      linarith
    simp only [initHealth, maintHealth, accountHealth, List.map_cons,
      List.sum_cons] at hrest ⊢
    linarith

/-- C6 witness: one slot with a borrow of one unit at price 1, maintenance
weight 2 and initial weight 3: initial health −3 is below maintenance
health −2. -/
theorem c6_init_health_le_maint_health_witness :
    (∀ s ∈ [HealthSlot.mk (-1) 1 0 0 2 3], s.maintWeight ≤ s.initWeight) ∧
    initHealth [HealthSlot.mk (-1) 1 0 0 2 3] ≤
      maintHealth [HealthSlot.mk (-1) 1 0 0 2 3] :=
  ⟨by
    intro s hs
    rw [List.mem_singleton] at hs
    subst hs
    norm_num,
    c6_init_health_le_maint_health _ (by
      intro s hs
      rw [List.mem_singleton] at hs
      subst hs
      norm_num)⟩

/-- C7: every fixed-point payload field is read as 16 little-endian bytes:
for any payload bytes, the `max_liab_transfer` of `LiquidateTokenAndToken`
(discriminant 26), `ResolvePerpBankruptcy` (30, after its 8-byte
`liab_index`) and `ResolveTokenBankruptcy` (31) is exactly the
little-endian value of those 16 payload bytes. -/
theorem c7_i80f48_fields_16_byte_le :
    (∀ data : List Byte, 16 ≤ data.length →
      MangoInstruction.unpack (bytesLE 4 26 ++ data) =
        .ok (.liquidateTokenAndToken (readLE 16 data))) ∧
    (∀ data : List Byte, 24 ≤ data.length →
      MangoInstruction.unpack (bytesLE 4 30 ++ data) =
        .ok (.resolvePerpBankruptcy (readLE 8 data)
          (readLE 16 (data.drop 8)))) ∧
    (∀ data : List Byte, 16 ≤ data.length →
      MangoInstruction.unpack (bytesLE 4 31 ++ data) =
        .ok (.resolveTokenBankruptcy (readLE 16 data))) := by
  refine ⟨?_, ?_, ?_⟩ <;> intro data h <;>
    rw [MangoInstruction.unpack, if_neg (by simp), take_bytesLE_append,
      drop_bytesLE_append] <;>
    simp [unpackArm, Nat.not_lt.mpr h]

/-- C7 witness: discriminant 26 with a 16-byte zero payload decodes to
`LiquidateTokenAndToken` with `max_liab_transfer` read from those bytes. -/
theorem c7_i80f48_fields_16_byte_le_witness :
    16 ≤ (List.replicate 16 (0 : Byte)).length ∧
    MangoInstruction.unpack (bytesLE 4 26 ++ List.replicate 16 0) =
      .ok (.liquidateTokenAndToken (readLE 16 (List.replicate 16 0))) :=
  ⟨by decide, c7_i80f48_fields_16_byte_le.1 _ (by decide)⟩

/-- C8: unsigned integer fields are read at their declared widths — 8
little-endian bytes for the `u64`/`usize` fields of `Deposit`,
`ConsumeEvents` and `SettlePnl`, and 1 byte for the `u8` limit of
`ForceCancelSpotOrders`, `ForceCancelPerpOrders` and
`CancelAllPerpOrders`. -/
theorem c8_unsigned_field_widths :
    (∀ data : List Byte, 8 ≤ data.length →
      MangoInstruction.unpack (bytesLE 4 2 ++ data) =
        .ok (.deposit (readLE 8 data))) ∧
    (∀ data : List Byte, 8 ≤ data.length →
      MangoInstruction.unpack (bytesLE 4 15 ++ data) =
        .ok (.consumeEvents (readLE 8 data))) ∧
    (∀ data : List Byte, 8 ≤ data.length →
      MangoInstruction.unpack (bytesLE 4 22 ++ data) =
        .ok (.settlePnl (readLE 8 data))) ∧
    (∀ data : List Byte, 1 ≤ data.length →
      MangoInstruction.unpack (bytesLE 4 24 ++ data) =
        .ok (.forceCancelSpotOrders (readLE 1 data))) ∧
    (∀ data : List Byte, 1 ≤ data.length →
      MangoInstruction.unpack (bytesLE 4 25 ++ data) =
        .ok (.forceCancelPerpOrders (readLE 1 data))) ∧
    (∀ data : List Byte, 1 ≤ data.length →
      MangoInstruction.unpack (bytesLE 4 39 ++ data) =
        .ok (.cancelAllPerpOrders (readLE 1 data))) := by
  refine ⟨?_, ?_, ?_, ?_, ?_, ?_⟩ <;> intro data h <;>
    rw [MangoInstruction.unpack, if_neg (by simp), take_bytesLE_append,
      drop_bytesLE_append] <;>
    simp [unpackArm, Nat.not_lt.mpr h]

/-- C8 witness: `Deposit` with payload bytes `[7, 0, …, 0]` decodes its
quantity from exactly those 8 little-endian bytes. -/
theorem c8_unsigned_field_widths_witness :
    8 ≤ ((7 : Byte) :: List.replicate 7 0).length ∧
    MangoInstruction.unpack (bytesLE 4 2 ++ (7 : Byte) :: List.replicate 7 0) =
      .ok (.deposit (readLE 8 ((7 : Byte) :: List.replicate 7 0))) :=
  ⟨by decide, c8_unsigned_field_widths.1 _ (by decide)⟩

/-- C9: the `withdraw` builder's account list at concrete keys
(program 100, group 1, account 2, owner 3, cache 4, root bank 5, node
bank 6, vault 7, token account 8, signer 9, no open-orders keys): every
capability flag matches the declared list except `mango_group`, which the
builder emits as writable (`AccountMeta::new`) although the instruction's
declared account list marks it `[read]`. -/
theorem c9_withdraw_builder_group_writable :
    (withdraw 100 1 2 3 4 5 6 7 8 9 [] 0 false).accounts =
      [⟨1, false, true⟩, ⟨2, false, true⟩, ⟨3, true, false⟩,
        ⟨4, false, false⟩, ⟨5, false, false⟩, ⟨6, false, true⟩,
        ⟨7, false, true⟩, ⟨8, false, true⟩, ⟨9, false, false⟩,
        ⟨spl_token_ID, false, false⟩] ∧
    ((withdraw 100 1 2 3 4 5 6 7 8 9 [] 0 false).accounts.map
      AccountMeta.is_writable) =
      [true, true, false, false, false, true, true, true, false, false] := by
  decide

/-- C10: `consume_events` sorts the caller's slice of mango-account keys in
place into ascending order and appends them as writable metas after the
four fixed metas, so the emitted list is the fixed metas followed by the
sorted keys, the final slice is sorted, and it is a permutation of the
original contents. -/
theorem c10_consume_events_sorted_accounts (pid g c pm evq : Nat)
    (pks : List Nat) (limit : W 8) :
    (consume_events pid g c pm evq pks limit).1.accounts =
      [AccountMeta.new_readonly g false, AccountMeta.new_readonly c false,
        AccountMeta.new pm false, AccountMeta.new evq false] ++
        ((consume_events pid g c pm evq pks limit).2).map
          (fun pk => AccountMeta.new pk false) ∧
    List.Sorted (· ≤ ·) (consume_events pid g c pm evq pks limit).2 ∧
    ((consume_events pid g c pm evq pks limit).2).Perm pks := by
  refine ⟨rfl, ?_, ?_⟩
  · exact List.sorted_insertionSort _ _
  · exact List.perm_insertionSort _ _
